import Mathlib

/-
Verification of the Portfolio Construction & Projection Engine
(Backend1/services/finance_api.py, class FinanceAPIService).

Python floats are modelled as exact rationals (ℚ) for the pure arithmetic
helpers, and as reals (ℝ) for the lognormal projection where `math.sqrt`
and `math.exp` appear.  Python `raise ValueError` is modelled by an
`Except` error value; the two distinct error messages of the source
("FX rate must be positive" and "Stock price must be positive") are the
`invalidRate` and `invalidPrice` constructors, and a Python
`ZeroDivisionError` (an unguarded `/ 0`) is `zeroDivision`.
-/

namespace FinanceAPI

/-- Error outcomes of the service's calculation methods. -/
inductive FinanceError
  | invalidRate
  | invalidPrice
  | zeroDivision
  deriving DecidableEq, Repr

/-- Python's `round(x, n)`: rounding to `n` decimal places.  (Python uses
round-half-to-even on ties; ties never matter for the claims below, so the
standard `round` is used.) -/
def roundTo (n : ℕ) (x : ℚ) : ℚ := (round (x * 10 ^ n) : ℤ) / 10 ^ n

/-- `FinanceAPIService.calculate_usd_buying_power` (finance_api.py:168-185):
raises when `fx_rate <= 0`, otherwise `round(budget_ngn / fx_rate, 2)`. -/
def calculate_usd_buying_power (budget_ngn fx_rate : ℚ) : Except FinanceError ℚ :=
  if fx_rate ≤ 0 then .error .invalidRate
  else .ok (roundTo 2 (budget_ngn / fx_rate))

/-- `FinanceAPIService.calculate_allocation` (finance_api.py:187-210):
no validation of `fx_rate`; `allocation_ngn = budget_ngn * (allocation_percent / 100)`,
`allocation_usd = allocation_ngn / fx_rate` (a Python `ZeroDivisionError`
when `fx_rate == 0`), both rounded to 2 decimals in the result dict. -/
def calculate_allocation (budget_ngn allocation_percent fx_rate : ℚ) :
    Except FinanceError (ℚ × ℚ) :=
  let allocation_ngn := budget_ngn * (allocation_percent / 100)
  if fx_rate = 0 then .error .zeroDivision
  else .ok (roundTo 2 allocation_ngn, roundTo 2 (allocation_ngn / fx_rate))

/-- `FinanceAPIService.calculate_fractional_shares` (finance_api.py:212-233):
raises when `stock_price_usd <= 0`, otherwise
`round(allocation_usd / stock_price_usd, 3)`. -/
def calculate_fractional_shares (allocation_usd stock_price_usd : ℚ) :
    Except FinanceError ℚ :=
  if stock_price_usd ≤ 0 then .error .invalidPrice
  else .ok (roundTo 3 (allocation_usd / stock_price_usd))

/-- One entry of an allocation template (symbol, type, percent). -/
structure AllocationEntry where
  symbol : String
  type : String
  percent : ℚ
  deriving DecidableEq, Repr

/-- The fixed `"low"` template (finance_api.py:249-252). -/
def low_template : List AllocationEntry :=
  [⟨"VOO", "ETF", 70⟩, ⟨"JNJ", "Stock", 30⟩]

/-- The fixed `"medium"` template (finance_api.py:253-257). -/
def medium_template : List AllocationEntry :=
  [⟨"SPY", "ETF", 50⟩, ⟨"AAPL", "Stock", 30⟩, ⟨"KO", "Stock", 20⟩]

/-- The fixed `"high"` template (finance_api.py:258-262). -/
def high_template : List AllocationEntry :=
  [⟨"VOO", "ETF", 40⟩, ⟨"AAPL", "Stock", 35⟩, ⟨"MSFT", "Stock", 25⟩]

/-- Python's `str.lower()` on the strings the service receives: lowercase each
character (agrees with `String.toLower`, written via `List.map` so that it
reduces in the kernel). -/
def lower (s : String) : String := ⟨s.data.map Char.toLower⟩

/-- `FinanceAPIService.get_allocation_template` (finance_api.py:235-265):
`templates.get(risk_level.lower(), templates["medium"])`. -/
def get_allocation_template (risk_level : String) : List AllocationEntry :=
  if lower risk_level = "low" then low_template
  else if lower risk_level = "medium" then medium_template
  else if lower risk_level = "high" then high_template
  else medium_template

/-- One entry of `self.asset_characteristics` (finance_api.py:47-81). -/
structure AssetCharacteristics where
  expected_return : ℚ
  volatility : ℚ
  asset_class : String
  deriving DecidableEq, Repr

/-- The static `self.asset_characteristics` table (finance_api.py:47-81),
as a partial lookup: `none` for a symbol not in the dict. -/
def asset_characteristics (symbol : String) : Option AssetCharacteristics :=
  if symbol = "VOO" then some ⟨10/100, 18/100, "Broad Market ETF"⟩
  else if symbol = "SPY" then some ⟨10/100, 18/100, "Broad Market ETF"⟩
  else if symbol = "AAPL" then some ⟨15/100, 25/100, "Large-Cap Tech"⟩
  else if symbol = "MSFT" then some ⟨15/100, 25/100, "Large-Cap Tech"⟩
  else if symbol = "JNJ" then some ⟨7/100, 15/100, "Defensive"⟩
  else if symbol = "KO" then some ⟨7/100, 15/100, "Defensive"⟩
  else none

/-- The default profile used by `_calculate_portfolio_statistics` for a symbol
missing from the catalog (finance_api.py:513-516); the Python default dict has
no `asset_class` key, recorded here as the empty string. -/
def default_characteristics : AssetCharacteristics := ⟨10/100, 18/100, ""⟩

/-- A portfolio position as consumed by `_calculate_portfolio_statistics`
(only `symbol` and `allocation_percent` are read). -/
structure PortfolioAsset where
  symbol : String
  allocation_percent : ℚ
  deriving DecidableEq, Repr

/-- One iteration of the loop in `_calculate_portfolio_statistics`
(finance_api.py:508-524), updating the running
`(total_weight, weighted_return, weighted_variance)` accumulator. -/
def stats_step (acc : ℚ × ℚ × ℚ) (asset : PortfolioAsset) : ℚ × ℚ × ℚ :=
  let weight := asset.allocation_percent / 100
  let chars := (asset_characteristics asset.symbol).getD default_characteristics
  (acc.1 + weight,
   acc.2.1 + weight * chars.expected_return,
   acc.2.2 + (weight * chars.volatility) ^ 2)

/-- The accumulation loop of `_calculate_portfolio_statistics`
(finance_api.py:504-524): all three accumulators start at `0`. -/
def stats_loop (portfolio : List PortfolioAsset) : ℚ × ℚ × ℚ :=
  portfolio.foldl stats_step (0, 0, 0)

/-- Output of `_calculate_portfolio_statistics`: the weighted return stays
rational; the volatility is `math.sqrt` of the weighted variance. -/
structure PortfolioStatistics where
  expected_return : ℚ
  volatility : ℝ

/-- `FinanceAPIService._calculate_portfolio_statistics` (finance_api.py:491-532). -/
noncomputable def calculate_portfolio_statistics (portfolio : List PortfolioAsset) :
    PortfolioStatistics :=
  ⟨(stats_loop portfolio).2.1, Real.sqrt ((stats_loop portfolio).2.2 : ℝ)⟩

/-- `self.fx_characteristics` (finance_api.py:84-87). -/
structure FxCharacteristics where
  expected_depreciation : ℚ
  fx_volatility : ℚ
  deriving DecidableEq, Repr

/-- `{"expected_depreciation": -0.04, "fx_volatility": 0.10}`. -/
def fx_characteristics : FxCharacteristics := ⟨-(4/100), 10/100⟩

/-- The `time_horizon: str | int` union argument of `_generate_projection`. -/
inductive TimeHorizon
  | str (s : String)
  | int (months : ℤ)
  deriving DecidableEq, Repr

/-- The `horizon_map` dict of `_generate_projection` (finance_api.py:387-400),
as a partial lookup. -/
def horizon_map (s : String) : Option ℚ :=
  if s = "3_months" then some (1/4)
  else if s = "6_months" then some (1/2)
  else if s = "1_year" then some 1
  else if s = "2_years" then some 2
  else if s = "3_years" then some 3
  else if s = "4_years" then some 4
  else if s = "5_years" then some 5
  else if s = "6_years" then some 6
  else if s = "7_years" then some 7
  else if s = "8_years" then some 8
  else if s = "9_years" then some 9
  else if s = "10_years" then some 10
  else none

/-- The `years` computed by `_generate_projection` (finance_api.py:382-401):
`time_horizon / 12.0` for an integer month count, otherwise
`horizon_map.get(time_horizon, 1.0)`. -/
def horizon_years : TimeHorizon → ℚ
  | .int months => (months : ℚ) / 12
  | .str s => (horizon_map s).getD 1

/-- The `fallback_stats` dict of `_generate_projection` (finance_api.py:410-418),
used when no (non-empty) portfolio is supplied: `(return, volatility)` per
risk level, unknown levels falling back to `"medium"`. -/
def fallback_stats (risk_level : String) : ℚ × ℚ :=
  if lower risk_level = "low" then (8/100, 15/100)
  else if lower risk_level = "medium" then (10/100, 18/100)
  else if lower risk_level = "high" then (13/100, 22/100)
  else (10/100, 18/100)

/-- Risk note appended when `years < 1` (finance_api.py:549). -/
def short_term_note : String :=
  "Short-term investments are highly volatile - expect significant fluctuations"

/-- Risk note appended when `1 <= years < 2` (finance_api.py:551). -/
def medium_term_note : String :=
  "Medium-term horizon allows some volatility smoothing but remains uncertain"

/-- Risk note appended when `years >= 2` (finance_api.py:553). -/
def long_term_note : String :=
  "Long-term horizon reduces impact of short-term volatility"

/-- Risk note appended when `volatility > 0.20` (finance_api.py:557). -/
def high_vol_note : String :=
  "High portfolio volatility - value may swing ±30% or more"

/-- Risk note appended when `0.15 < volatility <= 0.20` (finance_api.py:559). -/
def moderate_vol_note : String :=
  "Moderate volatility - expect fluctuations of ±20-30%"

/-- Risk note appended when `volatility <= 0.15` (finance_api.py:561). -/
def lower_vol_note : String :=
  "Lower volatility portfolio - relatively stable growth expected"

/-- First fixed Nigerian-specific risk note (finance_api.py:564-565, the two
adjacent Python string literals concatenate). -/
def fx_risk_note : String :=
  "FX risk: Naira depreciation increases USD asset value but also increases local currency volatility"

/-- Second fixed Nigerian-specific risk note (finance_api.py:566). -/
def market_access_note : String :=
  "Market access: Liquidity depends on broker availability and FX regulations"

/-- `FinanceAPIService._get_risk_factors` (finance_api.py:534-568): one
time-based note, one volatility-based note, then the two fixed notes. -/
noncomputable def get_risk_factors (years volatility : ℝ) : List String :=
  [if years < 1 then short_term_note
   else if years < 2 then medium_term_note
   else long_term_note,
   if volatility > 20/100 then high_vol_note
   else if volatility > 15/100 then moderate_vol_note
   else lower_vol_note,
   fx_risk_note,
   market_access_note]

/-- One projection scenario: the lognormal quantile multiplier, the scenario
value `budget_ngn * multiplier` and the scenario return `(multiplier - 1) * 100`
(finance_api.py:443-457). -/
structure Scenario where
  multiplier : ℝ
  value : ℝ
  return_percent : ℝ

/-- The numeric content of the dict returned by `_generate_projection`
(finance_api.py:460-489), including the intermediate lognormal parameters. -/
structure Projection where
  years : ℝ
  total_return : ℝ
  total_volatility : ℝ
  drift : ℝ
  diffusion : ℝ
  pessimistic : Scenario
  expected : Scenario
  optimistic : Scenario
  risk_factors : List String

/-- The projection arithmetic of `_generate_projection` after the portfolio
statistics are in hand (finance_api.py:420-489): FX combination, lognormal
drift and diffusion, and the three quantile scenarios at `z = -0.674, 0, 0.674`. -/
noncomputable def projection_core
    (budget_ngn portfolio_return portfolio_volatility years : ℝ) : Projection :=
  let fx_drift : ℝ := (fx_characteristics.expected_depreciation : ℚ)
  let fx_vol : ℝ := (fx_characteristics.fx_volatility : ℚ)
  let total_return := portfolio_return - fx_drift
  let correlation : ℝ := 3/10
  let total_volatility :=
    Real.sqrt (portfolio_volatility ^ 2 + fx_vol ^ 2 +
      2 * correlation * portfolio_volatility * fx_vol)
  let drift := (total_return - 1/2 * total_volatility ^ 2) * years
  let diffusion := total_volatility * Real.sqrt years
  let pessimistic_multiplier := Real.exp (drift - 674/1000 * diffusion)
  let expected_multiplier := Real.exp drift
  let optimistic_multiplier := Real.exp (drift + 674/1000 * diffusion)
  { years := years
    total_return := total_return
    total_volatility := total_volatility
    drift := drift
    diffusion := diffusion
    pessimistic := ⟨pessimistic_multiplier, budget_ngn * pessimistic_multiplier,
      (pessimistic_multiplier - 1) * 100⟩
    expected := ⟨expected_multiplier, budget_ngn * expected_multiplier,
      (expected_multiplier - 1) * 100⟩
    optimistic := ⟨optimistic_multiplier, budget_ngn * optimistic_multiplier,
      (optimistic_multiplier - 1) * 100⟩
    risk_factors := get_risk_factors years total_volatility }

/-- `FinanceAPIService._generate_projection` (finance_api.py:350-489), numeric
content: horizon resolution, portfolio statistics (with the risk-based
fallback when `portfolio` is `None` or empty), then `projection_core`.
`calculate_projections` (finance_api.py:573-585) delegates here unchanged. -/
noncomputable def generate_projection (budget_ngn : ℝ) (risk_level : String)
    (time_horizon : TimeHorizon) (portfolio : Option (List PortfolioAsset)) :
    Projection :=
  let years : ℝ := (horizon_years time_horizon : ℚ)
  let stats : ℝ × ℝ :=
    match portfolio with
    | some p =>
      if p = [] then
        ((fallback_stats risk_level).1, ((fallback_stats risk_level).2 : ℚ))
      else
        ((calculate_portfolio_statistics p).expected_return,
         (calculate_portfolio_statistics p).volatility)
    | none => ((fallback_stats risk_level).1, ((fallback_stats risk_level).2 : ℚ))
  projection_core budget_ngn stats.1 stats.2 years

/-- The per-symbol profile as the spec words it (for comparison with the
source's `.get(symbol, default)`): the catalog entry when present, otherwise
the documented default `(return 0.10, volatility 0.18)`. -/
def spec_profile (symbol : String) : ℚ × ℚ :=
  match asset_characteristics symbol with
  | some chars => (chars.expected_return, chars.volatility)
  | none => (10/100, 18/100)

/-- The positions induced by the `"medium"` template, used as a concrete
portfolio input. -/
def medium_positions : List PortfolioAsset :=
  [⟨"SPY", 50⟩, ⟨"AAPL", 30⟩, ⟨"KO", 20⟩]

/-- The twelve recognized horizon labels (the keys of `horizon_map`). -/
def horizon_labels : List String :=
  ["3_months", "6_months", "1_year", "2_years", "3_years", "4_years",
   "5_years", "6_years", "7_years", "8_years", "9_years", "10_years"]

/-- Claim C1's total return formula (spec side): `r - fx_drift` with
`fx_drift = -0.04`. -/
noncomputable def claimed_total_return (portfolio_return : ℝ) : ℝ :=
  portfolio_return - (-(4/100))

/-- Claim C1's combined volatility formula (spec side):
`sqrt(s² + f² + 2·0.3·s·f)` with `f = 0.10`. -/
noncomputable def claimed_total_vol (portfolio_volatility : ℝ) : ℝ :=
  Real.sqrt (portfolio_volatility ^ 2 + (10/100) ^ 2 +
    2 * (3/10) * portfolio_volatility * (10/100))

/-- Claim C1's drift formula (spec side). -/
noncomputable def claimed_drift (portfolio_return portfolio_volatility years : ℝ) : ℝ :=
  (claimed_total_return portfolio_return
    - 1/2 * claimed_total_vol portfolio_volatility ^ 2) * years

/-- Claim C1's diffusion formula (spec side). -/
noncomputable def claimed_diffusion (portfolio_volatility years : ℝ) : ℝ :=
  claimed_total_vol portfolio_volatility * Real.sqrt years

/-- Claim C1's scenario multiplier (spec side): `exp(drift + z·diffusion)`. -/
noncomputable def claimed_multiplier (portfolio_return portfolio_volatility years z : ℝ) : ℝ :=
  Real.exp (claimed_drift portfolio_return portfolio_volatility years
    + z * claimed_diffusion portfolio_volatility years)

/-- Claim C8's horizon note (spec side): short-term below one year,
medium-term from one to two years, long-term from two years on. -/
noncomputable def claimed_horizon_note (years : ℝ) : String :=
  if years < 1 then short_term_note
  else if years < 2 then medium_term_note
  else long_term_note

/-- The volatility note with the amended bands of C8: high above `0.20`,
moderate on `(0.15, 0.20]`, lower at or below `0.15`. -/
noncomputable def claimed_vol_note (volatility : ℝ) : String :=
  if 20/100 < volatility then high_vol_note
  else if 15/100 < volatility then moderate_vol_note
  else lower_vol_note

/-- Claim C6: `calculate_usd_buying_power` fails with `InvalidRateError`
exactly when `fx_rate ≤ 0`, and for every positive rate returns
`budget_ngn / fx_rate` rounded to 2 decimal places. -/
theorem buying_power_spec (budget_ngn fx_rate : ℚ) :
    (calculate_usd_buying_power budget_ngn fx_rate = .error .invalidRate ↔ fx_rate ≤ 0) ∧
    (0 < fx_rate →
      calculate_usd_buying_power budget_ngn fx_rate =
        .ok (roundTo 2 (budget_ngn / fx_rate))) := by
  constructor
  · constructor
    · intro h
      by_contra hle
      simp [calculate_usd_buying_power, hle] at h
    · intro h
      simp [calculate_usd_buying_power, h]
  · intro h
    rw [calculate_usd_buying_power, if_neg (not_le.mpr h)]

/-- Witness for C6: budget ₦50000 at rate 1540 gives `ok 32.47`, and both
hypotheses of the positive-rate branch hold at this input. -/
theorem buying_power_spec_witness :
    (0:ℚ) < 1540 ∧ calculate_usd_buying_power 50000 1540 = .ok (3247/100) := by
  have h := (buying_power_spec 50000 1540).2 (by norm_num)
  have hr : roundTo 2 ((50000:ℚ) / 1540) = 3247/100 := by
    unfold roundTo; rw [round_eq]; norm_num
  exact ⟨by norm_num, by rw [h, hr]⟩

/-- Counterexample to claim C2 as stated: at the negative rate `-2`, which the
claim says must raise `InvalidRateError`, `calculate_allocation` raises
nothing and returns a (negative) USD amount. -/
theorem calculate_allocation_no_rate_check :
    calculate_allocation 100 50 (-2) = .ok (50, -25) ∧
    calculate_allocation 100 50 (-2) ≠ .error .invalidRate := by
  have h : calculate_allocation 100 50 (-2) = .ok (50, -25) := by
    simp only [calculate_allocation]
    rw [if_neg (by norm_num)]
    norm_num [roundTo, round_eq]
  exact ⟨h, by rw [h]; simp⟩

/-- Claim C2 (amended): `calculate_allocation` performs no rate validation.
It fails only at `fx_rate = 0`, with a `ZeroDivisionError` rather than
`InvalidRateError`; for every `fx_rate ≠ 0` — positive or negative — it
returns `amount_ngn = round2(budget * percent/100)` and
`amount_usd = round2(budget * percent/100 / fx_rate)`. -/
theorem calculate_allocation_spec :
    (∀ budget_ngn allocation_percent : ℚ,
      calculate_allocation budget_ngn allocation_percent 0 = .error .zeroDivision) ∧
    (∀ budget_ngn allocation_percent fx_rate : ℚ, fx_rate ≠ 0 →
      calculate_allocation budget_ngn allocation_percent fx_rate =
        .ok (roundTo 2 (budget_ngn * (allocation_percent / 100)),
             roundTo 2 (budget_ngn * (allocation_percent / 100) / fx_rate))) := by
  constructor
  · intro b p
    simp [calculate_allocation]
  · intro b p r hr
    simp [calculate_allocation, hr]

/-- Witness for the amended C2: rate `-2 ≠ 0` passes through with rounded
amounts, and rate `0` produces the division error. -/
theorem calculate_allocation_spec_witness :
    ((-2:ℚ) ≠ 0 ∧ calculate_allocation 200 25 (-2) = .ok (50, -25)) ∧
    calculate_allocation 200 25 0 = .error .zeroDivision := by
  have h := calculate_allocation_spec.2 200 25 (-2) (by norm_num)
  refine ⟨⟨by norm_num, ?_⟩, calculate_allocation_spec.1 200 25⟩
  rw [h]
  norm_num [roundTo, round_eq]

/-- Claim C7: `calculate_fractional_shares` fails with `InvalidPriceError`
exactly when the price is non-positive; for positive allocation and price it
returns the quotient rounded to 3 decimals, and that result multiplied back by
the price is within `0.0005 * price` of the allocation. -/
theorem fractional_shares_spec (allocation_usd stock_price_usd : ℚ) :
    (calculate_fractional_shares allocation_usd stock_price_usd = .error .invalidPrice
      ↔ stock_price_usd ≤ 0) ∧
    (0 < allocation_usd → 0 < stock_price_usd →
      calculate_fractional_shares allocation_usd stock_price_usd =
          .ok (roundTo 3 (allocation_usd / stock_price_usd)) ∧
        |roundTo 3 (allocation_usd / stock_price_usd) * stock_price_usd - allocation_usd|
          ≤ 5/10000 * stock_price_usd) := by
  constructor
  · constructor
    · intro h
      by_contra hle
      simp [calculate_fractional_shares, hle] at h
    · intro h
      simp [calculate_fractional_shares, h]
  · intro _ hp0
    have hp : stock_price_usd ≠ 0 := ne_of_gt hp0
    constructor
    · rw [calculate_fractional_shares, if_neg (not_le.mpr hp0)]
    · have hx : allocation_usd / stock_price_usd * stock_price_usd = allocation_usd :=
        div_mul_cancel₀ _ hp
      have key : |roundTo 3 (allocation_usd / stock_price_usd)
          - allocation_usd / stock_price_usd| ≤ 1/2000 := by
        have h := abs_sub_round (allocation_usd / stock_price_usd * 10 ^ 3)
        unfold roundTo
        rw [abs_le] at h ⊢
        norm_num at h ⊢
        constructor <;> linarith
      have heq : (roundTo 3 (allocation_usd / stock_price_usd)
            - allocation_usd / stock_price_usd) * stock_price_usd
          = roundTo 3 (allocation_usd / stock_price_usd) * stock_price_usd
            - allocation_usd := by
        rw [sub_mul, hx]
      have habs : |roundTo 3 (allocation_usd / stock_price_usd) * stock_price_usd
            - allocation_usd|
          = |roundTo 3 (allocation_usd / stock_price_usd)
              - allocation_usd / stock_price_usd| * stock_price_usd := by
        rw [← heq, abs_mul, abs_of_pos hp0]
      rw [habs]
      have := mul_le_mul_of_nonneg_right key (le_of_lt hp0)
      linarith

/-- Witness for C7: 10 USD at price 3 buys `3.333` shares, worth `9.999`,
within `0.0015` of the allocation. -/
theorem fractional_shares_spec_witness :
    (0:ℚ) < 10 ∧ (0:ℚ) < 3 ∧
      calculate_fractional_shares 10 3 = .ok (3333/1000) ∧
      |(3333/1000 : ℚ) * 3 - 10| ≤ 5/10000 * 3 := by
  have h := (fractional_shares_spec 10 3).2 (by norm_num) (by norm_num)
  have hr : roundTo 3 ((10:ℚ) / 3) = 3333/1000 := by
    unfold roundTo; rw [round_eq]; norm_num
  refine ⟨by norm_num, by norm_num, ?_, ?_⟩
  · rw [h.1, hr]
  · have := h.2
    rw [hr] at this
    exact this

/-- Claim C9: `get_allocation_template` is case-insensitive on the recognized
tiers `low`, `medium`, `high`, and every unrecognized tier resolves to the
same template as requesting `"medium"`, without failing. -/
theorem get_allocation_template_spec :
    (∀ s, lower s = "low" →
      get_allocation_template s = get_allocation_template ("low")) ∧
    (∀ s, lower s = "medium" →
      get_allocation_template s = get_allocation_template ("medium")) ∧
    (∀ s, lower s = "high" →
      get_allocation_template s = get_allocation_template ("high")) ∧
    (∀ s, lower s ≠ "low" → lower s ≠ "medium" → lower s ≠ "high" →
      get_allocation_template s = get_allocation_template ("medium")) := by
  refine ⟨?_, ?_, ?_, ?_⟩
  · intro s h
    unfold get_allocation_template
    rw [h]
    decide
  · intro s h
    unfold get_allocation_template
    rw [h]
    decide
  · intro s h
    unfold get_allocation_template
    rw [h]
    decide
  · intro s h1 h2 h3
    unfold get_allocation_template
    rw [if_neg h1, if_neg h2, if_neg h3]
    decide

/-- Witness for C9: `"LOW"` lowercases to `"low"` and selects the same
template as `"low"`; the unrecognized tier `"riskier"` matches none of the
three keys and selects the same template as `"medium"`. -/
theorem get_allocation_template_spec_witness :
    (lower ("LOW") = "low" ∧
      get_allocation_template ("LOW") = get_allocation_template ("low")) ∧
    (lower ("riskier") ≠ "low" ∧ lower ("riskier") ≠ "medium" ∧
      lower ("riskier") ≠ "high" ∧
      get_allocation_template ("riskier") = get_allocation_template ("medium")) :=
  ⟨⟨by decide, get_allocation_template_spec.1 ("LOW") (by decide)⟩,
   ⟨by decide, by decide, by decide,
    get_allocation_template_spec.2.2.2 ("riskier") (by decide) (by decide) (by decide)⟩⟩

/-- The `.get(symbol, default)` lookup of the loop agrees with `spec_profile`. -/
theorem getD_spec_profile (s : String) :
    ((asset_characteristics s).getD default_characteristics).expected_return
        = (spec_profile s).1 ∧
    ((asset_characteristics s).getD default_characteristics).volatility
        = (spec_profile s).2 := by
  unfold spec_profile default_characteristics
  cases asset_characteristics s <;> simp

/-- The statistics loop, from any accumulator, adds the three sums. -/
theorem stats_foldl_eq (portfolio : List PortfolioAsset) (init : ℚ × ℚ × ℚ) :
    portfolio.foldl stats_step init =
      (init.1 + (portfolio.map (fun a => a.allocation_percent / 100)).sum,
       init.2.1 + (portfolio.map
         (fun a => a.allocation_percent / 100 * (spec_profile a.symbol).1)).sum,
       init.2.2 + (portfolio.map
         (fun a => (a.allocation_percent / 100 * (spec_profile a.symbol).2) ^ 2)).sum) := by
  induction portfolio generalizing init with
  | nil => simp
  | cons a t ih =>
    rw [List.foldl_cons, ih]
    simp only [List.map_cons, List.sum_cons, stats_step, Prod.mk.injEq,
      (getD_spec_profile a.symbol).1, (getD_spec_profile a.symbol).2]
    refine ⟨?_, ?_, ?_⟩ <;> dsimp <;> ring

/-- Claim C5: on any non-empty portfolio the aggregator returns the simple
weighted sum `Σ (percent/100)·expected_return` and the square root of
`Σ ((percent/100)·volatility)²` with no cross terms, and a symbol missing
from the catalog uses the default profile `(0.10, 0.18)` instead of failing. -/
theorem portfolio_statistics_spec (portfolio : List PortfolioAsset)
    (hne : portfolio ≠ []) :
    (calculate_portfolio_statistics portfolio).expected_return =
        (portfolio.map
          (fun a => a.allocation_percent / 100 * (spec_profile a.symbol).1)).sum ∧
    (calculate_portfolio_statistics portfolio).volatility =
        Real.sqrt (((portfolio.map
          (fun a => (a.allocation_percent / 100 * (spec_profile a.symbol).2) ^ 2)).sum : ℚ)) ∧
    ∀ s, asset_characteristics s = none → spec_profile s = (10/100, 18/100) := by
  have h := stats_foldl_eq portfolio (0, 0, 0)
  unfold calculate_portfolio_statistics stats_loop
  rw [h]
  refine ⟨by simp, by simp, ?_⟩
  intro s hs
  unfold spec_profile
  rw [hs]

/-- Witness for C5: the medium-template positions form a non-empty portfolio
with weighted return `0.109` and volatility `sqrt(0.014625)`. -/
theorem portfolio_statistics_spec_witness :
    medium_positions ≠ [] ∧
    (calculate_portfolio_statistics medium_positions).expected_return = 109/1000 ∧
    (calculate_portfolio_statistics medium_positions).volatility =
      Real.sqrt ((14625/1000000 : ℚ)) := by
  have h := portfolio_statistics_spec medium_positions (by simp [medium_positions])
  have hSPY : spec_profile ("SPY") = (10/100, 18/100) := rfl
  have hAAPL : spec_profile ("AAPL") = (15/100, 25/100) := rfl
  have hKO : spec_profile ("KO") = (7/100, 15/100) := rfl
  refine ⟨by simp [medium_positions], ?_, ?_⟩
  · rw [h.1]
    simp only [medium_positions, List.map_cons, List.map_nil, List.sum_cons,
      List.sum_nil, hSPY, hAAPL, hKO]
    norm_num
  · rw [h.2.1]
    simp only [medium_positions, List.map_cons, List.map_nil, List.sum_cons,
      List.sum_nil, hSPY, hAAPL, hKO]
    congr 1
    norm_num

/-- Claim C1: the projection computes exactly the claimed closed-form:
`total_return = r - (-0.04)`, `total_vol = sqrt(s² + 0.10² + 2·0.3·s·0.10)`,
`drift = (total_return - 0.5·total_vol²)·t`, `diffusion = total_vol·sqrt t`,
multipliers `exp(drift + z·diffusion)` at `z = -0.674, 0, 0.674`, scenario
value `b·multiplier` and scenario return `(multiplier - 1)·100`. -/
theorem projection_formulas (b r s t : ℝ) (hs : 0 ≤ s) (ht : 0 ≤ t) :
    (projection_core b r s t).total_return = claimed_total_return r ∧
    (projection_core b r s t).total_volatility = claimed_total_vol s ∧
    (projection_core b r s t).drift = claimed_drift r s t ∧
    (projection_core b r s t).diffusion = claimed_diffusion s t ∧
    (projection_core b r s t).pessimistic.multiplier
      = claimed_multiplier r s t (-(674/1000)) ∧
    (projection_core b r s t).expected.multiplier = claimed_multiplier r s t 0 ∧
    (projection_core b r s t).optimistic.multiplier
      = claimed_multiplier r s t (674/1000) ∧
    (projection_core b r s t).pessimistic.value
      = b * claimed_multiplier r s t (-(674/1000)) ∧
    (projection_core b r s t).expected.value = b * claimed_multiplier r s t 0 ∧
    (projection_core b r s t).optimistic.value
      = b * claimed_multiplier r s t (674/1000) ∧
    (projection_core b r s t).pessimistic.return_percent
      = (claimed_multiplier r s t (-(674/1000)) - 1) * 100 ∧
    (projection_core b r s t).expected.return_percent
      = (claimed_multiplier r s t 0 - 1) * 100 ∧
    (projection_core b r s t).optimistic.return_percent
      = (claimed_multiplier r s t (674/1000) - 1) * 100 := by
  unfold projection_core claimed_multiplier claimed_drift claimed_diffusion
    claimed_total_vol claimed_total_return fx_characteristics
  norm_num
  ring_nf
  norm_num

/-- Witness for C1: at budget 1, return 0.109, volatility 0, horizon 1 year,
both hypotheses hold and the expected multiplier follows the claimed formula. -/
theorem projection_formulas_witness :
    (0:ℝ) ≤ 0 ∧ (0:ℝ) ≤ 1 ∧
    (projection_core 1 (109/1000) 0 1).expected.multiplier
      = claimed_multiplier (109/1000) 0 1 0 ∧
    (projection_core 1 (109/1000) 0 1).total_return
      = claimed_total_return (109/1000) :=
  have h := projection_formulas 1 (109/1000) 0 1 (by norm_num) (by norm_num)
  ⟨by norm_num, by norm_num, h.2.2.2.2.2.1, h.1⟩

/-- At zero years the core projection collapses: drift and diffusion vanish,
every multiplier is `exp 0 = 1` and every scenario value is the budget. -/
theorem projection_core_zero_years (b r s : ℝ) :
    (projection_core b r s 0).drift = 0 ∧
    (projection_core b r s 0).diffusion = 0 ∧
    (projection_core b r s 0).pessimistic.multiplier = 1 ∧
    (projection_core b r s 0).expected.multiplier = 1 ∧
    (projection_core b r s 0).optimistic.multiplier = 1 ∧
    (projection_core b r s 0).pessimistic.value = b ∧
    (projection_core b r s 0).expected.value = b ∧
    (projection_core b r s 0).optimistic.value = b := by
  unfold projection_core
  norm_num [Real.sqrt_zero, Real.exp_zero]

/-- Claim C3: with an integer `time_horizon` of 0 months (`horizon_years = 0`)
the projection has zero drift and diffusion, all three multipliers exactly 1,
and all three scenario values exactly the input budget, whatever the risk
level and portfolio arguments are. -/
theorem zero_horizon_identity (budget_ngn : ℝ) (risk_level : String)
    (portfolio : Option (List PortfolioAsset)) :
    (generate_projection budget_ngn risk_level (.int 0) portfolio).drift = 0 ∧
    (generate_projection budget_ngn risk_level (.int 0) portfolio).diffusion = 0 ∧
    (generate_projection budget_ngn risk_level (.int 0) portfolio).pessimistic.multiplier = 1 ∧
    (generate_projection budget_ngn risk_level (.int 0) portfolio).expected.multiplier = 1 ∧
    (generate_projection budget_ngn risk_level (.int 0) portfolio).optimistic.multiplier = 1 ∧
    (generate_projection budget_ngn risk_level (.int 0) portfolio).pessimistic.value = budget_ngn ∧
    (generate_projection budget_ngn risk_level (.int 0) portfolio).expected.value = budget_ngn ∧
    (generate_projection budget_ngn risk_level (.int 0) portfolio).optimistic.value = budget_ngn := by
  have hy : ((horizon_years (.int 0) : ℚ) : ℝ) = 0 := by
    norm_num [horizon_years]
  unfold generate_projection
  rw [hy]
  exact projection_core_zero_years budget_ngn _ _

/-- Scenario values at the three quantiles are ordered once the budget and
the diffusion are non-negative. -/
theorem scenario_value_ordering (b drift diffusion : ℝ)
    (hb : 0 ≤ b) (hd : 0 ≤ diffusion) :
    b * Real.exp (drift - 674/1000 * diffusion) ≤ b * Real.exp drift ∧
    b * Real.exp drift ≤ b * Real.exp (drift + 674/1000 * diffusion) := by
  constructor <;> apply mul_le_mul_of_nonneg_left _ hb <;>
    apply Real.exp_le_exp.mpr <;> nlinarith

/-- Claim C4: for budget ≥ 0, portfolio volatility ≥ 0 and horizon ≥ 0 the
scenario values satisfy `pessimistic ≤ expected ≤ optimistic`. -/
theorem quantile_ordering (b r s t : ℝ) (hb : 0 ≤ b) (hs : 0 ≤ s) (ht : 0 ≤ t) :
    (projection_core b r s t).pessimistic.value
        ≤ (projection_core b r s t).expected.value ∧
    (projection_core b r s t).expected.value
        ≤ (projection_core b r s t).optimistic.value := by
  unfold projection_core
  exact scenario_value_ordering b _ _ hb
    (mul_nonneg (Real.sqrt_nonneg _) (Real.sqrt_nonneg _))

/-- Witness for C4: the ordering holds at budget 50000, return 0.109,
volatility 0.18, one-year horizon. -/
theorem quantile_ordering_witness :
    (0:ℝ) ≤ 50000 ∧ (0:ℝ) ≤ 18/100 ∧ (0:ℝ) ≤ 1 ∧
    ((projection_core 50000 (109/1000) (18/100) 1).pessimistic.value
        ≤ (projection_core 50000 (109/1000) (18/100) 1).expected.value ∧
      (projection_core 50000 (109/1000) (18/100) 1).expected.value
        ≤ (projection_core 50000 (109/1000) (18/100) 1).optimistic.value) :=
  ⟨by norm_num, by norm_num, by norm_num,
   quantile_ordering 50000 (109/1000) (18/100) 1 (by norm_num) (by norm_num) (by norm_num)⟩

/-- Claim C10: a horizon string outside the twelve recognized labels silently
resolves to 1.0 years, and the projection coincides with the `"1_year"`
projection for every budget, risk level and portfolio. -/
theorem unknown_horizon_fallback (s : String) (h : s ∉ horizon_labels) :
    horizon_years (.str s) = 1 ∧
    ∀ budget_ngn risk_level portfolio,
      generate_projection budget_ngn risk_level (.str s) portfolio =
        generate_projection budget_ngn risk_level (.str ("1_year")) portfolio := by
  simp only [horizon_labels, List.mem_cons, List.not_mem_nil, or_false, not_or] at h
  obtain ⟨h1, h2, h3, h4, h5, h6, h7, h8, h9, h10, h11, h12⟩ := h
  have hmap : horizon_map s = none := by
    simp [horizon_map, h1, h2, h3, h4, h5, h6, h7, h8, h9, h10, h11, h12]
  have hy : horizon_years (.str s) = 1 := by
    simp [horizon_years, hmap]
  have hy1 : horizon_years (.str ("1_year")) = 1 := rfl
  refine ⟨hy, ?_⟩
  intro b rl p
  unfold generate_projection
  rw [hy, hy1]

/-- Witness for C10: `"forever"` is not a recognized label, resolves to one
year, and projects exactly as `"1_year"` at a concrete input. -/
theorem unknown_horizon_fallback_witness :
    ("forever" ∉ horizon_labels) ∧
    horizon_years (.str ("forever")) = 1 ∧
    generate_projection 50000 ("medium") (.str ("forever")) none =
      generate_projection 50000 ("medium") (.str ("1_year")) none :=
  have h := unknown_horizon_fallback ("forever") (by decide)
  ⟨by decide, h.1, h.2 50000 ("medium") none⟩

/-- Counterexample to claim C8 as stated: at total volatility exactly `0.15`,
which the claim's moderate band `0.15–0.20` covers, the source's strict
`volatility > 0.15` test fails and the "lower volatility" note is produced
instead of the moderate one. -/
theorem risk_factors_boundary_counterexample :
    get_risk_factors 1 (15/100) =
      [medium_term_note, lower_vol_note, fx_risk_note, market_access_note] ∧
    lower_vol_note ≠ moderate_vol_note := by
  constructor
  · unfold get_risk_factors
    rw [if_neg (by norm_num), if_pos (by norm_num),
      if_neg (by norm_num), if_neg (by norm_num)]
  · decide

/-- Claim C8 (amended): the risk narrative is always the ordered list of one
horizon note (short-term below 1 year, medium-term from 1 to 2, long-term
from 2 on), one volatility note (high above `0.20`, moderate on the half-open
band `(0.15, 0.20]`, lower at or below `0.15`), then the two fixed
currency-risk statements. -/
theorem risk_factors_spec (years volatility : ℝ) :
    get_risk_factors years volatility =
      [claimed_horizon_note years, claimed_vol_note volatility,
       fx_risk_note, market_access_note] := by
  unfold get_risk_factors claimed_horizon_note claimed_vol_note
  rfl

end FinanceAPI
